import Mathlib

/-!
A shallow embedding of the request-matching and mock-response delivery engine of
wildcard-mock-link (class `WildcardMockLink` in `src/index.ts`, the revision that
reports a missing mock through `observableWithError` and supports
`suppressMissingMockWarnings`).

Modelling conventions, stated once:

* A GraphQL document is modelled by its canonical printed form (`Doc.printed`)
  together with the `operation` field of its first operation definition
  (`Doc.opKind`, `none` when the document holds no operation definition).
  `print`, `addTypenameToDocument` and `removeClientSetsFromDocument` are
  external to the repository (graphql / apollo utilities); on canonical forms
  the latter two act as the identity, so `queryToString` is the projection
  `Doc.printed`.
* `fast-json-stable-stringify` is modelled by `stringify`: a deterministic
  sorted-key JSON rendering of the vars mapping.
* A JS `Map` is modelled by its lookup function (`StringMap`); the source never
  iterates over these maps, so only `get`/`set`/`delete` matter.
* An `Observable` is modelled by the signals it sends to a subscriber:
  `FetchObservable.immediateError` is `observableWithError` (the error is
  delivered in-band to the observer, not thrown), `FetchObservable.delivery`
  is the query/mutation observable built over `forwardResponseToObserver`,
  and `FetchObservable.channel` is the subscription observable, which on
  subscription registers an open channel and forwards the first response.
  Signals sent to an already-open channel are appended to `channelLog`.
* A synchronous JS `throw` is modelled by `Except.error`; functions without a
  `throw` are total.
* `setTimeout` delays and the promise bookkeeping of
  `setLastResponsePromiseFromObservable` are scheduling concerns; the delay is
  recorded in the delivered signal, and the recursive wait loop
  `waitForAllResponsesRecursively` is modelled separately over an oracle for
  the pending-set emptiness check it performs at each iteration.
-/

/-- The `operation` field of an OperationDefinitionNode. -/
inductive OpKind where
  | query
  | mutation
  | subscription
deriving DecidableEq

/-- A request document: its canonical printed form and the operation kind of
its first operation definition (`none` for a document with none, which the
facade treats like a query). -/
structure Doc where
  printed : String
  opKind : Option OpKind
deriving DecidableEq

/-- Operation vars: a finite mapping from variable name to a JSON-encoded
value, as an association list. -/
abbrev Vars := List (String × String)

/-- A delivered GraphQL result (abstract payload data). -/
structure FetchResult where
  data : String
deriving DecidableEq

/-- The error payload of a mocked response. -/
structure MockError where
  message : String
deriving DecidableEq

/-- The `result` field of a mock: a FetchResult value, or a function of the
(possibly absent) vars. -/
inductive MockedResult where
  | value (r : FetchResult)
  | fn (f : Option Vars → FetchResult)

/-- A JS number used as an `nMatches` count: an integer or
`Number.POSITIVE_INFINITY` (the unbounded sentinel). -/
inductive MatchCount where
  | int (n : Int)
  | posInf
deriving DecidableEq

/-- The JS predecrement `--nMatches`: `Infinity - 1 === Infinity`. -/
def MatchCount.decr : MatchCount → MatchCount
  | .int n => .int (n - 1)
  | .posInf => .posInf

/-- The `=== 0` test on the decremented count. -/
def MatchCount.isZero : MatchCount → Bool
  | .int n => n == 0
  | .posInf => false

/-- A `GraphQLRequest` as stored inside a mock entry. -/
structure MockRequest where
  query : Doc
  vars : Option Vars

/-- A stored mock entry, the element type of both queues. For entries stored in
`wildcardMatches`, `addMockedResponse` copies only `result`, `nMatches`,
`delay` and `request`, so their `error` is always `none` and their
`request.vars` is always `none`. -/
structure Mock where
  request : MockRequest
  result : Option MockedResult := none
  error : Option MockError := none
  delay : Option Nat := none
  nMatches : Option MatchCount := none

/-- The `vars` field of a `WildcardMockedResponse`: the
`MATCH_ANY_PARAMETERS` sentinel, or ordinary (possibly absent) vars. -/
inductive ReqVariables where
  | matchAny
  | given (v : Option Vars)

/-- A `WildcardMockedResponse` as passed to the constructor or to
`addMockedResponse`. -/
structure MockInput where
  query : Doc
  vars : ReqVariables
  result : Option MockedResult := none
  error : Option MockError := none
  delay : Option Nat := none
  nMatches : Option MatchCount := none

/-- `isNotWildcard`: the mock's vars are not the sentinel. -/
def isNotWildcard (mock : MockInput) : Bool :=
  match mock.vars with
  | .matchAny => false
  | .given _ => true

/-- An incoming operation: its document, its vars (an Apollo operation
always carries a vars object, possibly empty) and its context. -/
structure Operation where
  query : Doc
  vars : Vars
  context : String

/-- `toStoredOperation`: what the operation log records. -/
structure StoredOperation where
  query : Doc
  vars : Vars
  context : String

def toStoredOperation (op : Operation) : StoredOperation :=
  { query := op.query, vars := op.vars, context := op.context }

/-- A signal sent to an already-open subscription channel (`observer.next` /
`observer.complete`). -/
inductive ChannelSignal where
  | next (value : FetchResult)
  | complete
deriving DecidableEq

/-- The error taxonomy. `noMockMatched` is the `No mocks matched …` error,
`incompleteMockDefinition` the `Must provide error or result for
query/mutation mocks` error, `channelNotOpen` the `… subscription that is not
open` errors; the message strings are elided. -/
inductive LinkError where
  | noMockMatched
  | incompleteMockDefinition
  | channelNotOpen
deriving DecidableEq

/-- `getResultFromFetchResult(result, vars)`: invoke a function payload
with the vars, return a value payload unchanged. -/
def getResultFromFetchResult (result : MockedResult) (vars : Option Vars) : FetchResult :=
  match result with
  | .value r => r
  | .fn f => f vars

/-- What `forwardResponseToObserver(observer, response, complete, act)` sends:
a result (after `delay`, then completion when `complete` is set), else an
error (after `delay`), else nothing at all. -/
inductive DeliverySignal where
  | result (value : FetchResult) (complete : Bool) (delay : Option Nat)
  | error (e : MockError) (delay : Option Nat)
  | silent

def forwardResponseToObserver (response : Mock) (complete : Bool) : DeliverySignal :=
  match response.result with
  | some result =>
      .result (getResultFromFetchResult result response.request.vars) complete response.delay
  | none =>
      match response.error with
      | some e => .error e response.delay
      | none => .silent

/-- The observable a request returns, by the signals it sends once
subscribed. -/
inductive FetchObservable where
  | immediateError (e : LinkError)
  | delivery (signal : DeliverySignal)
  | channel (id : Nat) (initial : DeliverySignal)

/-- `observableWithError`: an observable that immediately signals `error` to
its observer — an in-band asynchronous error result, not a synchronous
throw. -/
def observableWithError (e : LinkError) : FetchObservable :=
  .immediateError e

/-- A JS `Map<string, α>` by its lookup function. -/
abbrev StringMap (α : Type) := String → Option α

def emptyStringMap {α : Type} : StringMap α := fun _ => none

def mapSet {α : Type} (m : StringMap α) (k : String) (v : α) : StringMap α :=
  fun q => if q = k then some v else m q

def mapDelete {α : Type} (m : StringMap α) (k : String) : StringMap α :=
  fun q => if q = k then none else m q

/-- Insert a pair into a key-sorted association list. -/
def insertSorted (p : String × String) : List (String × String) → List (String × String)
  | [] => [p]
  | q :: t => if p.1 ≤ q.1 then p :: q :: t else q :: insertSorted p t

/-- Sort an association list by key. -/
def sortPairs : List (String × String) → List (String × String)
  | [] => []
  | p :: t => insertSorted p (sortPairs t)

/-- `fast-json-stable-stringify`: deterministic JSON with sorted keys. -/
def stringify (v : Vars) : String :=
  "\x7b" ++ String.intercalate ","
    ((sortPairs v).map fun p => "\x22" ++ p.1 ++ "\x22:" ++ p.2) ++ "\x7d"

/-- The mutable state of a `WildcardMockLink` instance. -/
structure WildcardMockLink where
  wildcardMatches : StringMap (List Mock) := emptyStringMap
  regularMatches : StringMap (List Mock) := emptyStringMap
  queries : List StoredOperation := []
  mutations : List StoredOperation := []
  subscriptions : List StoredOperation := []
  /-- canonical key of an open subscription channel, to its observer id. -/
  openSubscriptions : StringMap Nat := emptyStringMap
  nextObserverId : Nat := 0
  /-- signals sent to already-open channels, by observer id. -/
  channelLog : List (Nat × ChannelSignal) := []
  addTypename : Bool := true
  suppressMissingMockWarnings : Bool := false

/-- `print(this.addTypename ? addTypenameToDocument(query) : query)`; on
canonical forms this is the projection to the printed document. -/
def WildcardMockLink.queryToString (_link : WildcardMockLink) (query : Doc) : String :=
  query.printed

/-- `this.queryToString(query) + stringify(vars ?? {})`. -/
def WildcardMockLink.queryAndVariablesToString (link : WildcardMockLink) (query : Doc)
    (vars : Option Vars) : String :=
  link.queryToString query ++ stringify (vars.getD [])

/-- The head-consumption step shared verbatim by `getWildcardMockMatch` and
`getRegularMockMatch`:
`if (nextMock.nMatches === undefined || --nextMock.nMatches === 0)`.
Returns the head after the decrement, and whether it is to be shifted off its
queue. -/
def consumeCount (nextMock : Mock) : Mock × Bool :=
  match nextMock.nMatches with
  | none => (nextMock, true)
  | some c =>
      let c := c.decr
      ({ nextMock with nMatches := some c }, c.isZero)

/-- `getWildcardMockMatch`: look up the wildcard queue for the document-only
key, consume its head, and return it with the caller's vars substituted
into a copy of its request. -/
def WildcardMockLink.getWildcardMockMatch (link : WildcardMockLink) (op : Operation) :
    Option Mock × WildcardMockLink :=
  let mockKey := link.queryToString op.query
  match link.wildcardMatches mockKey with
  | none => (none, link)
  | some [] => (none, link)
      -- never reached: the maps are only ever given non-empty queues
  | some (nextMock :: rest) =>
      let (dec, removeHead) := consumeCount nextMock
      let link :=
        if removeHead then
          if rest.isEmpty then
            { link with wildcardMatches := mapDelete link.wildcardMatches mockKey }
          else
            { link with wildcardMatches := mapSet link.wildcardMatches mockKey rest }
        else
          { link with wildcardMatches := mapSet link.wildcardMatches mockKey (dec :: rest) }
      (some { dec with request := { dec.request with vars := some op.vars } }, link)

/-- `getRegularMockMatch`: look up the exact queue for the document-plus-
vars key and consume its head, returning the stored entry. -/
def WildcardMockLink.getRegularMockMatch (link : WildcardMockLink) (op : Operation) :
    Option Mock × WildcardMockLink :=
  let mockKey := link.queryAndVariablesToString op.query (some op.vars)
  match link.regularMatches mockKey with
  | none => (none, link)
  | some [] => (none, link)
      -- never reached: the maps are only ever given non-empty queues
  | some (nextMock :: rest) =>
      let (dec, removeHead) := consumeCount nextMock
      let link :=
        if removeHead then
          if rest.isEmpty then
            { link with regularMatches := mapDelete link.regularMatches mockKey }
          else
            { link with regularMatches := mapSet link.regularMatches mockKey rest }
        else
          { link with regularMatches := mapSet link.regularMatches mockKey (dec :: rest) }
      (some dec, link)

/-- What one call to `request` produces: the returned observable, the state
after the call, and whether `console.warn` fired. -/
structure StepResult where
  observable : FetchObservable
  state : WildcardMockLink
  warned : Bool := false

/-- `requestSubscription`: log the operation, then open a channel under the
wildcard (document-only) key on a wildcard match, or under the exact
(document-plus-vars) key on a regular match, forwarding the matched
response without completion; with no match, warn unless suppressed and return
the in-band error observable. -/
def WildcardMockLink.requestSubscription (link : WildcardMockLink) (op : Operation) :
    StepResult :=
  let link := { link with subscriptions := link.subscriptions ++ [toStoredOperation op] }
  match link.getWildcardMockMatch op with
  | (some wildcardMock, link) =>
      let id := link.nextObserverId
      { observable := .channel id (forwardResponseToObserver wildcardMock false),
        state := { link with
          openSubscriptions := mapSet link.openSubscriptions (link.queryToString op.query) id,
          nextObserverId := id + 1 } }
  | (none, link) =>
      match link.getRegularMockMatch op with
      | (none, link) =>
          { observable := observableWithError .noMockMatched,
            state := link,
            warned := !link.suppressMissingMockWarnings }
      | (some regularMock, link) =>
          let id := link.nextObserverId
          { observable := .channel id (forwardResponseToObserver regularMock false),
            state := { link with
              openSubscriptions := mapSet link.openSubscriptions
                (link.queryAndVariablesToString op.query (some op.vars)) id,
              nextObserverId := id + 1 } }

/-- `request`: dispatch subscriptions, log the operation, then wildcard match
first; only when the wildcard lookup yields nothing is the exact queue
consulted. A matched mock with neither `error` nor `result` yields the
incomplete-definition error observable; no match at all yields the
no-mock-matched error observable plus a warning unless suppressed. -/
def WildcardMockLink.request (link : WildcardMockLink) (op : Operation) : StepResult :=
  if op.query.opKind = some .subscription then link.requestSubscription op
  else
    let link :=
      if op.query.opKind = some .mutation then
        { link with mutations := link.mutations ++ [toStoredOperation op] }
      else
        { link with queries := link.queries ++ [toStoredOperation op] }
    match link.getWildcardMockMatch op with
    | (some wildcardMock, link) =>
        if wildcardMock.error.isNone && wildcardMock.result.isNone then
          { observable := observableWithError .incompleteMockDefinition, state := link }
        else
          { observable := .delivery (forwardResponseToObserver wildcardMock true),
            state := link }
    | (none, link) =>
        match link.getRegularMockMatch op with
        | (none, link) =>
            { observable := observableWithError .noMockMatched,
              state := link,
              warned := !link.suppressMissingMockWarnings }
        | (some regularMock, link) =>
            if regularMock.error.isNone && regularMock.result.isNone then
              { observable := observableWithError .incompleteMockDefinition, state := link }
            else
              { observable := .delivery (forwardResponseToObserver regularMock true),
                state := link }

/-- `addMockedResponse(...responses)`: append each response to the exact queue
for its document-plus-vars key, or — for a wildcard response — to the
wildcard queue for its document-only key. The stored wildcard entry copies
only `result`, `nMatches`, `delay` (defaulted to 0) and `request` with the
sentinel replaced by `undefined`; in particular its `error` is dropped. -/
def WildcardMockLink.addMockedResponse (link : WildcardMockLink)
    (responses : List MockInput) : WildcardMockLink :=
  responses.foldl (fun link response =>
    match response.vars with
    | .given v =>
        let mockKey := link.queryAndVariablesToString response.query v
        let stored : Mock :=
          { request := { query := response.query, vars := v },
            result := response.result, error := response.error,
            delay := response.delay, nMatches := response.nMatches }
        match link.regularMatches mockKey with
        | some matchesForKey =>
            let grown := mapSet link.regularMatches mockKey (matchesForKey ++ [stored])
            { link with regularMatches := grown }
        | none =>
            { link with regularMatches := mapSet link.regularMatches mockKey [stored] }
    | .matchAny =>
        let mockKey := link.queryToString response.query
        let storedMock : Mock :=
          { request := { query := response.query, vars := none },
            result := response.result,
            nMatches := response.nMatches,
            delay := some (response.delay.getD 0) }
        match link.wildcardMatches mockKey with
        | some storedMocks =>
            let grown := mapSet link.wildcardMatches mockKey (storedMocks ++ [storedMock])
            { link with wildcardMatches := grown }
        | none =>
            { link with wildcardMatches := mapSet link.wildcardMatches mockKey [storedMock] })
    link

/-- `new WildcardMockLink(mockedResponses, options)` for the options-record
form (the legacy boolean form only sets `addTypename`);
`normalizeMockedResponse` strips `@client` selections, the identity on
canonical documents. -/
structure WildcardMockLinkOptions where
  addTypename : Option Bool := none
  suppressMissingMockWarnings : Option Bool := none

def mkWildcardMockLink (mockedResponses : List MockInput)
    (options : WildcardMockLinkOptions) : WildcardMockLink :=
  let base : WildcardMockLink :=
    { addTypename := options.addTypename.getD true,
      suppressMissingMockWarnings := options.suppressMissingMockWarnings.getD false }
  base.addMockedResponse mockedResponses

/-- `sendSubscriptionResult`: look up the open channel under the exact
(document-plus-vars) key; throw `ChannelNotOpen` when absent
(`Except.error` models the synchronous throw), else send the response to
it. -/
def WildcardMockLink.sendSubscriptionResult (link : WildcardMockLink) (request : Doc)
    (vars : Option Vars) (response : FetchResult) :
    Except LinkError WildcardMockLink :=
  match link.openSubscriptions (link.queryAndVariablesToString request vars) with
  | none => .error .channelNotOpen
  | some subscription =>
      .ok { link with channelLog := link.channelLog ++ [(subscription, .next response)] }

/-- `sendWildcardSubscriptionResult`: the same, looked up under the
document-only key. -/
def WildcardMockLink.sendWildcardSubscriptionResult (link : WildcardMockLink)
    (request : Doc) (response : FetchResult) : Except LinkError WildcardMockLink :=
  match link.openSubscriptions (link.queryToString request) with
  | none => .error .channelNotOpen
  | some subscription =>
      .ok { link with channelLog := link.channelLog ++ [(subscription, .next response)] }

/-- `closeSubscription`: look up the channel under the document-only key;
throw `ChannelNotOpen` when absent, else signal completion and delete the
channel. -/
def WildcardMockLink.closeSubscription (link : WildcardMockLink) (request : Doc) :
    Except LinkError WildcardMockLink :=
  let cacheKey := link.queryToString request
  match link.openSubscriptions cacheKey with
  | none => .error .channelNotOpen
  | some subscription =>
      .ok { link with
        channelLog := link.channelLog ++ [(subscription, .complete)],
        openSubscriptions := mapDelete link.openSubscriptions cacheKey }

/-- Submit the same operation `n` times in sequence, collecting the returned
observables. -/
def WildcardMockLink.requestMany (link : WildcardMockLink) (op : Operation) :
    Nat → List FetchObservable × WildcardMockLink
  | 0 => ([], link)
  | n + 1 =>
      let r := link.request op
      let (rest, final) := r.state.requestMany op n
      (r.observable :: rest, final)

/-- The inner loop `runWait` of `waitForAllResponsesRecursively`:
`if (!this.pendingResponses.size) return; await Promise.all(…); await
delay(requestWindow); await runWait()`. `pending k` abstracts whether
`this.pendingResponses` is non-empty when the guard is evaluated for the k-th
time (new futures may appear while the previous round's futures and the
request window are awaited); `fuel` bounds how many guard evaluations are
observed, since the source loop need not terminate. `some r` means the loop
resolved at the r-th check, having found no pending future there; `none`
means it was still looping after `fuel` checks. -/
def runWait (pending : Nat → Bool) : Nat → Nat → Option Nat
  | 0, _ => none
  | fuel + 1, k => if pending k then runWait pending fuel (k + 1) else some k

def waitForAllResponsesRecursively (pending : Nat → Bool) (fuel : Nat) : Option Nat :=
  runWait pending fuel 0

/-! ### Concrete fixtures used to instantiate the theorems -/

/-- A concrete query document. -/
def exDocQ : Doc := { printed := "query Q", opKind := some .query }

/-- A concrete subscription document. -/
def exDocS : Doc := { printed := "subscription S", opKind := some .subscription }

/-- A concrete query operation with variables. -/
def exOp : Operation := { query := exDocQ, vars := [("a", "1")], context := "ctx" }

/-- A concrete subscription operation. -/
def exOpS : Operation := { query := exDocS, vars := [("a", "1")], context := "ctx" }

/-- A wildcard entry as `addMockedResponse` stores it, unbounded. -/
def exWildcardMock : Mock :=
  { request := { query := exDocQ, vars := none },
    result := some (.value { data := "wild" }),
    delay := some 0,
    nMatches := some .posInf }

/-- An exact entry with two remaining matches. -/
def exExactMock : Mock :=
  { request := { query := exDocQ, vars := some [("a", "1")] },
    result := some (.value { data := "exact" }),
    nMatches := some (.int 2) }

/-- A single-use wildcard entry (`nMatches` absent). -/
def exOneShotWildcard : Mock :=
  { request := { query := exDocQ, vars := none },
    result := some (.value { data := "oneshot" }),
    delay := some 0 }

/-- A single-use exact entry (`nMatches` absent). -/
def exOneShotExact : Mock :=
  { request := { query := exDocQ, vars := some [("a", "1")] },
    result := some (.value { data := "oneshotE" }) }

/-- A wildcard entry whose payload is a function of the vars, 3 matches. -/
def exFnMock : Mock :=
  { request := { query := exDocQ, vars := none },
    result := some (.fn fun v => { data := (v.getD []).length.repr }),
    delay := some 0,
    nMatches := some (.int 3) }

/-- A wildcard subscription entry as stored. -/
def exSubWildcardMock : Mock :=
  { request := { query := exDocS, vars := none },
    result := some (.value { data := "v0" }),
    delay := some 0,
    nMatches := some (.int 1) }

/-- An exact subscription entry as stored. -/
def exSubExactMock : Mock :=
  { request := { query := exDocS, vars := some [("a", "1")] },
    result := some (.value { data := "v0" }) }

/-! ### Small lemmas about the map model, the consume step and key shapes -/

theorem mapSet_get_self {α : Type} (m : StringMap α) (k : String) (v : α) :
    mapSet m k v k = some v := by
  simp [mapSet]

theorem mapSet_get_ne {α : Type} (m : StringMap α) (k q : String) (v : α) (h : q ≠ k) :
    mapSet m k v q = m q := by
  simp [mapSet, h]

theorem mapDelete_get_self {α : Type} (m : StringMap α) (k : String) :
    mapDelete m k k = none := by
  simp [mapDelete]

theorem mapDelete_get_ne {α : Type} (m : StringMap α) (k q : String) (h : q ≠ k) :
    mapDelete m k q = m q := by
  simp [mapDelete, h]

theorem queryToString_eq (s : WildcardMockLink) (q : Doc) :
    s.queryToString q = q.printed := rfl

theorem queryAndVariablesToString_eq (s : WildcardMockLink) (q : Doc) (v : Option Vars) :
    s.queryAndVariablesToString q v = q.printed ++ stringify (v.getD []) := rfl

theorem consumeCount_undefined (m : Mock) (h : m.nMatches = none) :
    consumeCount m = (m, true) := by
  simp [consumeCount, h]

theorem consumeCount_int (m : Mock) (n : Int) (h : m.nMatches = some (.int n)) :
    consumeCount m = ({ m with nMatches := some (.int (n - 1)) }, n - 1 == 0) := by
  simp [consumeCount, h, MatchCount.decr, MatchCount.isZero]

theorem consumeCount_posInf (m : Mock) (h : m.nMatches = some .posInf) :
    consumeCount m = ({ m with nMatches := some .posInf }, false) := by
  simp [consumeCount, h, MatchCount.decr, MatchCount.isZero]

theorem mock_update_nMatches_self (m : Mock) (c : Option MatchCount) (h : m.nMatches = c) :
    ({ m with nMatches := c } : Mock) = m := by
  cases m
  cases h
  rfl

theorem forward_update_nMatches (m : Mock) (c : Option MatchCount) (b : Bool) :
    forwardResponseToObserver { m with nMatches := c } b = forwardResponseToObserver m b := rfl

/-- `stringify` always renders at least the braces of the JSON object. -/
theorem stringify_length_pos (v : Vars) : 0 < (stringify v).length := by
  simp [stringify, String.length_append]
  right
  decide

/-- The document-only key is never the document-plus-variables key for the
same document: appending a JSON object is appending a non-empty string. -/
theorem docKey_ne_exactKey (a : String) (v : Vars) : a ≠ a ++ stringify v := by
  intro h
  have hl := congrArg String.length h
  rw [String.length_append] at hl
  have := stringify_length_pos v
  omega

/-! ### One-step characterizations of matching and of `request` -/

theorem getWildcardMockMatch_of_none (s : WildcardMockLink) (op : Operation)
    (h : s.wildcardMatches op.query.printed = none) :
    s.getWildcardMockMatch op = (none, s) := by
  simp [WildcardMockLink.getWildcardMockMatch, queryToString_eq, h]

theorem getWildcardMockMatch_of_cons (s : WildcardMockLink) (op : Operation)
    (mock : Mock) (rest : List Mock)
    (h : s.wildcardMatches op.query.printed = some (mock :: rest)) :
    s.getWildcardMockMatch op =
      (some { (consumeCount mock).1 with
                request := { (consumeCount mock).1.request with vars := some op.vars } },
       if (consumeCount mock).2 then
         if rest.isEmpty then
           { s with wildcardMatches := mapDelete s.wildcardMatches op.query.printed }
         else
           { s with wildcardMatches := mapSet s.wildcardMatches op.query.printed rest }
       else
         { s with wildcardMatches := mapSet s.wildcardMatches op.query.printed ((consumeCount mock).1 :: rest) }) := by
  rcases hcc : consumeCount mock with ⟨dec, removeHead⟩
  simp [WildcardMockLink.getWildcardMockMatch, queryToString_eq, h, hcc]

theorem getRegularMockMatch_of_none (s : WildcardMockLink) (op : Operation)
    (h : s.regularMatches (op.query.printed ++ stringify op.vars) = none) :
    s.getRegularMockMatch op = (none, s) := by
  simp [WildcardMockLink.getRegularMockMatch, queryAndVariablesToString_eq, h]

theorem getRegularMockMatch_of_cons (s : WildcardMockLink) (op : Operation)
    (mock : Mock) (rest : List Mock)
    (h : s.regularMatches (op.query.printed ++ stringify op.vars) = some (mock :: rest)) :
    s.getRegularMockMatch op =
      (some (consumeCount mock).1,
       if (consumeCount mock).2 then
         if rest.isEmpty then
           { s with regularMatches := mapDelete s.regularMatches (op.query.printed ++ stringify op.vars) }
         else
           { s with regularMatches := mapSet s.regularMatches (op.query.printed ++ stringify op.vars) rest }
       else
         { s with regularMatches := mapSet s.regularMatches (op.query.printed ++ stringify op.vars) ((consumeCount mock).1 :: rest) }) := by
  rcases hcc : consumeCount mock with ⟨dec, removeHead⟩
  simp [WildcardMockLink.getRegularMockMatch, queryAndVariablesToString_eq, h, hcc]


/-- The substituted copy a wildcard match hands to the delivery engine ignores
the decremented count. -/
theorem forward_subst_consume (mock : Mock) (v : Vars) (b : Bool) :
    forwardResponseToObserver
      { (consumeCount mock).1 with
          request := { (consumeCount mock).1.request with vars := some v } } b
    = forwardResponseToObserver
        { mock with request := { mock.request with vars := some v } } b := by
  obtain ⟨req, res, err, d, nm⟩ := mock
  rcases nm with _ | c
  · rfl
  · rcases c with n | _ <;> rfl

theorem consume_fst_result (mock : Mock) : ((consumeCount mock).1).result = mock.result := by
  obtain ⟨req, res, err, d, nm⟩ := mock
  rcases nm with _ | c
  · rfl
  · rcases c with n | _ <;> rfl

theorem consume_fst_error (mock : Mock) : ((consumeCount mock).1).error = mock.error := by
  obtain ⟨req, res, err, d, nm⟩ := mock
  rcases nm with _ | c
  · rfl
  · rcases c with n | _ <;> rfl

theorem consume_fst_request (mock : Mock) : ((consumeCount mock).1).request = mock.request := by
  obtain ⟨req, res, err, d, nm⟩ := mock
  rcases nm with _ | c
  · rfl
  · rcases c with n | _ <;> rfl

theorem forward_consume_fst (mock : Mock) (b : Bool) :
    forwardResponseToObserver (consumeCount mock).1 b = forwardResponseToObserver mock b := by
  obtain ⟨req, res, err, d, nm⟩ := mock
  rcases nm with _ | c
  · rfl
  · rcases c with n | _ <;> rfl

theorem consume_fst_delay (mock : Mock) : ((consumeCount mock).1).delay = mock.delay := by
  obtain ⟨req, res, err, d, nm⟩ := mock
  rcases nm with _ | c
  · rfl
  · rcases c with n | _ <;> rfl

/-- `forwardResponseToObserver` reads only the request vars, result, error and
delay of its response. -/
theorem forward_congr_fields (m m' : Mock) (b : Bool)
    (h1 : m.request.vars = m'.request.vars) (h2 : m.result = m'.result)
    (h3 : m.error = m'.error) (h4 : m.delay = m'.delay) :
    forwardResponseToObserver m b = forwardResponseToObserver m' b := by
  obtain ⟨⟨q, v⟩, res, err, d, nm⟩ := m
  obtain ⟨⟨q', v'⟩, res', err', d', nm'⟩ := m'
  simp only at h1 h2 h3 h4
  subst h1
  subst h2
  subst h3
  subst h4
  rfl

/-- One `request` step on a query or mutation whose document has a non-empty
wildcard queue: the wildcard mock is delivered with the caller's vars
substituted in, the exact-keyed map is left alone, no warning fires, and the
wildcard queue is consumed. -/
theorem request_wildcard_step (s : WildcardMockLink) (op : Operation)
    (mock : Mock) (rest : List Mock) (r : MockedResult)
    (hop : op.query.opKind ≠ some .subscription)
    (h : s.wildcardMatches op.query.printed = some (mock :: rest))
    (hres : mock.result = some r) :
    (s.request op).observable =
        .delivery (forwardResponseToObserver
          { mock with request := { mock.request with vars := some op.vars } } true)
    ∧ (s.request op).state.regularMatches = s.regularMatches
    ∧ (s.request op).state.openSubscriptions = s.openSubscriptions
    ∧ (s.request op).state.suppressMissingMockWarnings = s.suppressMissingMockWarnings
    ∧ (s.request op).state.wildcardMatches =
        (if (consumeCount mock).2 then
           if rest.isEmpty then mapDelete s.wildcardMatches op.query.printed
           else mapSet s.wildcardMatches op.query.printed rest
         else mapSet s.wildcardMatches op.query.printed ((consumeCount mock).1 :: rest))
    ∧ (s.request op).warned = false := by
  have hw1 := getWildcardMockMatch_of_cons
    { s with mutations := s.mutations ++ [toStoredOperation op] } op mock rest h
  have hw2 := getWildcardMockMatch_of_cons
    { s with queries := s.queries ++ [toStoredOperation op] } op mock rest h
  have hcr := consume_fst_result mock
  by_cases hmut : op.query.opKind = some OpKind.mutation <;>
    rcases hb : (consumeCount mock).2 <;>
      rcases hre : rest.isEmpty <;>
        simp [WildcardMockLink.request, hop, hmut, hw1, hw2, hb, hre,
          forward_subst_consume, hcr, hres] <;>
      exact forward_congr_fields _ _ true rfl rfl (consume_fst_error mock) (consume_fst_delay mock)

/-- One `request` step on a query or mutation with no wildcard queue for the
document: the head of the exact queue is delivered unchanged and consumed; the
wildcard map is untouched. -/
theorem request_regular_step (s : WildcardMockLink) (op : Operation)
    (mock : Mock) (rest : List Mock)
    (hop : op.query.opKind ≠ some .subscription)
    (hw : s.wildcardMatches op.query.printed = none)
    (hr : s.regularMatches (op.query.printed ++ stringify op.vars) = some (mock :: rest))
    (hok : mock.result.isSome ∨ mock.error.isSome) :
    (s.request op).observable = .delivery (forwardResponseToObserver mock true)
    ∧ (s.request op).state.wildcardMatches = s.wildcardMatches
    ∧ (s.request op).state.openSubscriptions = s.openSubscriptions
    ∧ (s.request op).state.suppressMissingMockWarnings = s.suppressMissingMockWarnings
    ∧ (s.request op).state.regularMatches =
        (if (consumeCount mock).2 then
           if rest.isEmpty then mapDelete s.regularMatches (op.query.printed ++ stringify op.vars)
           else mapSet s.regularMatches (op.query.printed ++ stringify op.vars) rest
         else mapSet s.regularMatches (op.query.printed ++ stringify op.vars) ((consumeCount mock).1 :: rest))
    ∧ (s.request op).warned = false := by
  have hw1 := getWildcardMockMatch_of_none
    { s with mutations := s.mutations ++ [toStoredOperation op] } op hw
  have hw2 := getWildcardMockMatch_of_none
    { s with queries := s.queries ++ [toStoredOperation op] } op hw
  have hr1 := getRegularMockMatch_of_cons
    { s with mutations := s.mutations ++ [toStoredOperation op] } op mock rest hr
  have hr2 := getRegularMockMatch_of_cons
    { s with queries := s.queries ++ [toStoredOperation op] } op mock rest hr
  have hknd : (((consumeCount mock).1).error.isNone && ((consumeCount mock).1).result.isNone) = false := by
    rw [consume_fst_error, consume_fst_result]
    rcases hok with hok | hok <;>
      rcases homk : mock.result with _ | v <;>
        rcases hemk : mock.error with _ | e <;>
          simp_all
  by_cases hmut : op.query.opKind = some OpKind.mutation <;>
    rcases hb : (consumeCount mock).2 <;>
      rcases hre : rest.isEmpty <;>
        simp [WildcardMockLink.request, hop, hmut, hw1, hw2, hr1, hr2, hb, hre, hknd,
          forward_consume_fst]

/-- One `request` step on a query or mutation matched by nothing: the in-band
`noMockMatched` error observable is returned, a warning fires exactly when
warnings are not suppressed, and both mock maps are untouched. -/
theorem request_no_match_step (s : WildcardMockLink) (op : Operation)
    (hop : op.query.opKind ≠ some .subscription)
    (hw : s.wildcardMatches op.query.printed = none)
    (hr : s.regularMatches (op.query.printed ++ stringify op.vars) = none) :
    (s.request op).observable = observableWithError .noMockMatched
    ∧ (s.request op).warned = !s.suppressMissingMockWarnings
    ∧ (s.request op).state.wildcardMatches = s.wildcardMatches
    ∧ (s.request op).state.regularMatches = s.regularMatches
    ∧ (s.request op).state.openSubscriptions = s.openSubscriptions
    ∧ (s.request op).state.suppressMissingMockWarnings = s.suppressMissingMockWarnings := by
  have hw1 := getWildcardMockMatch_of_none
    { s with mutations := s.mutations ++ [toStoredOperation op] } op hw
  have hw2 := getWildcardMockMatch_of_none
    { s with queries := s.queries ++ [toStoredOperation op] } op hw
  have hr1 := getRegularMockMatch_of_none
    { s with mutations := s.mutations ++ [toStoredOperation op] } op hr
  have hr2 := getRegularMockMatch_of_none
    { s with queries := s.queries ++ [toStoredOperation op] } op hr
  by_cases hmut : op.query.opKind = some OpKind.mutation <;>
    simp [WildcardMockLink.request, hop, hmut, hw1, hw2, hr1, hr2, observableWithError]

/-- One subscription request matched by a wildcard mock: a channel is opened
under the document-only key, carrying the substituted initial forward. -/
theorem requestSubscription_wildcard_step (s : WildcardMockLink) (op : Operation)
    (mock : Mock) (rest : List Mock)
    (hop : op.query.opKind = some .subscription)
    (h : s.wildcardMatches op.query.printed = some (mock :: rest)) :
    (s.request op).observable =
        .channel s.nextObserverId (forwardResponseToObserver
          { mock with request := { mock.request with vars := some op.vars } } false)
    ∧ (s.request op).state.openSubscriptions =
        mapSet s.openSubscriptions op.query.printed s.nextObserverId
    ∧ (s.request op).state.nextObserverId = s.nextObserverId + 1
    ∧ (s.request op).state.regularMatches = s.regularMatches := by
  have hw1 := getWildcardMockMatch_of_cons
    { s with subscriptions := s.subscriptions ++ [toStoredOperation op] } op mock rest h
  rcases hb : (consumeCount mock).2 <;>
    rcases hre : rest.isEmpty <;>
      simp [WildcardMockLink.request, WildcardMockLink.requestSubscription, hop, hw1, hb, hre,
        forward_subst_consume, queryToString_eq]

/-- One subscription request with no wildcard queue, matched by an exact mock:
a channel is opened under the document-plus-variables key. -/
theorem requestSubscription_regular_step (s : WildcardMockLink) (op : Operation)
    (mock : Mock) (rest : List Mock)
    (hop : op.query.opKind = some .subscription)
    (hw : s.wildcardMatches op.query.printed = none)
    (hr : s.regularMatches (op.query.printed ++ stringify op.vars) = some (mock :: rest)) :
    (s.request op).observable =
        .channel s.nextObserverId (forwardResponseToObserver mock false)
    ∧ (s.request op).state.openSubscriptions =
        mapSet s.openSubscriptions (op.query.printed ++ stringify op.vars) s.nextObserverId
    ∧ (s.request op).state.nextObserverId = s.nextObserverId + 1 := by
  have hw1 := getWildcardMockMatch_of_none
    { s with subscriptions := s.subscriptions ++ [toStoredOperation op] } op hw
  have hr1 := getRegularMockMatch_of_cons
    { s with subscriptions := s.subscriptions ++ [toStoredOperation op] } op mock rest hr
  rcases hb : (consumeCount mock).2 <;>
    rcases hre : rest.isEmpty <;>
      simp [WildcardMockLink.request, WildcardMockLink.requestSubscription, hop, hw1, hr1, hb, hre,
        forward_consume_fst, queryAndVariablesToString_eq]

theorem requestMany_zero (s : WildcardMockLink) (op : Operation) :
    s.requestMany op 0 = ([], s) := rfl

theorem requestMany_succ (s : WildcardMockLink) (op : Operation) (n : Nat) :
    s.requestMany op (n + 1) =
      ((s.request op).observable :: ((s.request op).state.requestMany op n).1,
       ((s.request op).state.requestMany op n).2) := rfl

/-! ### The claims -/

/-- C1: for an incoming query or mutation, a wildcard mock registered for the
operation's document is preferred over an exact mock registered for the exact
(document, variables) pair: while a wildcard queue for the document exists,
the operation receives the wildcard mock's payload and the exact-keyed map is
not consulted (it is left untouched, whatever it holds for the exact key);
only when no wildcard queue exists for the document is the exact-keyed queue
consulted, and then its head is delivered. -/
theorem C1_wildcard_preferred_over_exact (s : WildcardMockLink) (op : Operation)
    (hop : op.query.opKind ≠ some .subscription) :
    (∀ mock rest r, s.wildcardMatches op.query.printed = some (mock :: rest) →
        mock.result = some r →
        (s.request op).observable =
          .delivery (forwardResponseToObserver
            { mock with request := { mock.request with vars := some op.vars } } true)
        ∧ (s.request op).state.regularMatches = s.regularMatches)
    ∧ (s.wildcardMatches op.query.printed = none →
        ∀ mock rest, s.regularMatches (op.query.printed ++ stringify op.vars) = some (mock :: rest) →
          mock.result.isSome ∨ mock.error.isSome →
          (s.request op).observable = .delivery (forwardResponseToObserver mock true)) := by
  constructor
  · intro mock rest r hw hres
    have h := request_wildcard_step s op mock rest r hop hw hres
    exact ⟨h.1, h.2.1⟩
  · intro hw mock rest hr hok
    exact (request_regular_step s op mock rest hop hw hr hok).1

/-- The fixture state for C1: a wildcard mock and an exact mock registered for
the same document, the exact one under exactly the submitted variables. -/
def c1Link : WildcardMockLink :=
  { wildcardMatches := mapSet emptyStringMap "query Q" [exWildcardMock],
    regularMatches := mapSet emptyStringMap ("query Q" ++ stringify [("a", "1")]) [exExactMock] }

/-- The fixture state for C1 without the wildcard mock. -/
def c1LinkNoWild : WildcardMockLink :=
  { regularMatches := mapSet emptyStringMap ("query Q" ++ stringify [("a", "1")]) [exExactMock] }

theorem C1_witness :
    ((c1Link.request exOp).observable = .delivery (.result { data := "wild" } true (some 0))
      ∧ (c1Link.request exOp).state.regularMatches = c1Link.regularMatches)
    ∧ (c1LinkNoWild.request exOp).observable = .delivery (.result { data := "exact" } true none) := by
  have h1 := (C1_wildcard_preferred_over_exact c1Link exOp (by decide)).1
    exWildcardMock [] (.value { data := "wild" }) rfl rfl
  have h2 := (C1_wildcard_preferred_over_exact c1LinkNoWild exOp (by decide)).2
    rfl exExactMock [] rfl (Or.inl rfl)
  exact ⟨⟨h1.1.trans rfl, h1.2⟩, h2.trans rfl⟩

/-- C4: a query or mutation matched by neither a wildcard nor an exact mock
receives an in-band asynchronous error result — the facade returns the
`observableWithError` observable, which signals the error to the caller's
observer rather than throwing — and the warning is logged if and only if the
`suppressMissingMockWarnings` option is not set. -/
theorem C4_unmatched_operation_error_and_warning (s : WildcardMockLink) (op : Operation)
    (hop : op.query.opKind ≠ some .subscription)
    (hw : s.wildcardMatches op.query.printed = none)
    (hr : s.regularMatches (op.query.printed ++ stringify op.vars) = none) :
    (s.request op).observable = observableWithError .noMockMatched
    ∧ ((s.request op).warned = true ↔ s.suppressMissingMockWarnings = false) := by
  have h := request_no_match_step s op hop hw hr
  refine ⟨h.1, ?_⟩
  rw [h.2.1]
  cases hsup : s.suppressMissingMockWarnings <;> simp

/-- The fixture state for C4: no mocks, warnings not suppressed. -/
def c4Link : WildcardMockLink := {}

/-- The fixture state for C4 with warnings suppressed. -/
def c4LinkSuppressed : WildcardMockLink := { suppressMissingMockWarnings := true }

theorem C4_witness :
    ((c4Link.request exOp).observable = observableWithError .noMockMatched
      ∧ ((c4Link.request exOp).warned = true ↔ c4Link.suppressMissingMockWarnings = false))
    ∧ ((c4LinkSuppressed.request exOp).observable = observableWithError .noMockMatched
      ∧ ((c4LinkSuppressed.request exOp).warned = true
          ↔ c4LinkSuppressed.suppressMissingMockWarnings = false)) :=
  ⟨C4_unmatched_operation_error_and_warning c4Link exOp (by decide) rfl rfl,
   C4_unmatched_operation_error_and_warning c4LinkSuppressed exOp (by decide) rfl rfl⟩

/-- C7: each of `sendSubscriptionResult`, `sendWildcardSubscriptionResult` and
`closeSubscription` raises `channelNotOpen` synchronously (`Except.error`,
the model of `throw`, as opposed to an in-band error observable) when no
channel is registered under the key it targets; when a channel is registered,
`closeSubscription` sends it the completion signal and removes it from the
registry. -/
theorem C7_channel_ops_throw_when_not_open (s : WildcardMockLink) (d : Doc)
    (v : Option Vars) (resp : FetchResult) :
    (s.openSubscriptions (d.printed ++ stringify (v.getD [])) = none →
        s.sendSubscriptionResult d v resp = .error .channelNotOpen)
    ∧ (s.openSubscriptions d.printed = none →
        s.sendWildcardSubscriptionResult d resp = .error .channelNotOpen
        ∧ s.closeSubscription d = .error .channelNotOpen)
    ∧ (∀ ch, s.openSubscriptions d.printed = some ch →
        s.closeSubscription d =
          .ok { s with channelLog := s.channelLog ++ [(ch, .complete)], openSubscriptions := mapDelete s.openSubscriptions d.printed }) := by
  refine ⟨fun h => ?_, fun h => ⟨?_, ?_⟩, fun ch h => ?_⟩ <;>
    simp_all [WildcardMockLink.sendSubscriptionResult,
      WildcardMockLink.sendWildcardSubscriptionResult, WildcardMockLink.closeSubscription,
      queryAndVariablesToString_eq, queryToString_eq]

/-- The fixture state for C7: one channel open under the document-only key of
the subscription document. -/
def c7Link : WildcardMockLink :=
  { openSubscriptions := mapSet emptyStringMap "subscription S" 0 }

theorem C7_witness :
    (c7Link.sendSubscriptionResult exDocS (some [("a", "1")]) { data := "v1" }
        = .error .channelNotOpen)
    ∧ (c7Link.sendWildcardSubscriptionResult exDocQ { data := "v1" } = .error .channelNotOpen
        ∧ c7Link.closeSubscription exDocQ = .error .channelNotOpen)
    ∧ c7Link.closeSubscription exDocS =
        .ok { c7Link with channelLog := c7Link.channelLog ++ [(0, .complete)], openSubscriptions := mapDelete c7Link.openSubscriptions "subscription S" } := by
  have h1 := (C7_channel_ops_throw_when_not_open c7Link exDocS (some [("a", "1")])
    { data := "v1" }).1 rfl
  have h2 := (C7_channel_ops_throw_when_not_open c7Link exDocQ none { data := "v1" }).2.1 rfl
  have h3 := (C7_channel_ops_throw_when_not_open c7Link exDocS none { data := "v1" }).2.2 0 rfl
  exact ⟨h1, h2, h3⟩

/-- C6: a subscription channel opened via a wildcard match is registered under
the document-only key, while `sendSubscriptionResult` looks up the
document-plus-variables key; those keys never coincide (the variables render
as a non-empty JSON suffix), so the push fails with `channelNotOpen` for any
variables. -/
theorem C6_wildcard_channel_rejects_exact_push (s : WildcardMockLink) (op : Operation)
    (mock : Mock) (rest : List Mock) (v : Option Vars) (resp : FetchResult)
    (hop : op.query.opKind = some .subscription)
    (hempty : s.openSubscriptions = emptyStringMap)
    (h : s.wildcardMatches op.query.printed = some (mock :: rest)) :
    (s.request op).state.sendSubscriptionResult op.query v resp = .error .channelNotOpen := by
  have hstep := requestSubscription_wildcard_step s op mock rest hop h
  have hkey : op.query.printed ++ stringify (v.getD []) ≠ op.query.printed :=
    fun hk => docKey_ne_exactKey op.query.printed (v.getD []) hk.symm
  have hnone : (s.request op).state.openSubscriptions
      (op.query.printed ++ stringify (v.getD [])) = none := by
    rw [hstep.2.1, mapSet_get_ne _ _ _ _ hkey, hempty]
    rfl
  simp [WildcardMockLink.sendSubscriptionResult, queryAndVariablesToString_eq,
    queryToString_eq, hnone]

/-- The fixture state for C6: a wildcard subscription mock and no open
channel. -/
def c6Link : WildcardMockLink :=
  { wildcardMatches := mapSet emptyStringMap "subscription S" [exSubWildcardMock] }

theorem C6_witness :
    (c6Link.request exOpS).state.sendSubscriptionResult exDocS (some [("a", "1")])
      { data := "v1" } = .error .channelNotOpen :=
  C6_wildcard_channel_rejects_exact_push c6Link exOpS exSubWildcardMock [] (some [("a", "1")])
    { data := "v1" } (by decide) rfl rfl

/-- C10: `closeSubscription` derives its lookup key from the document alone;
a channel opened via an exact (non-wildcard) mock is registered under the
document-plus-variables key, so closing by document raises `channelNotOpen`
and the exact-keyed channel stays registered. -/
theorem C10_close_cannot_target_exact_channel (s : WildcardMockLink) (op : Operation)
    (mock : Mock) (rest : List Mock)
    (hop : op.query.opKind = some .subscription)
    (hempty : s.openSubscriptions = emptyStringMap)
    (hw : s.wildcardMatches op.query.printed = none)
    (hr : s.regularMatches (op.query.printed ++ stringify op.vars) = some (mock :: rest)) :
    (s.request op).state.closeSubscription op.query = .error .channelNotOpen
    ∧ (s.request op).state.openSubscriptions (op.query.printed ++ stringify op.vars)
        = some s.nextObserverId := by
  have hstep := requestSubscription_regular_step s op mock rest hop hw hr
  have hkey : op.query.printed ≠ op.query.printed ++ stringify op.vars :=
    docKey_ne_exactKey _ _
  constructor
  · have hnone : (s.request op).state.openSubscriptions op.query.printed = none := by
      rw [hstep.2.1, mapSet_get_ne _ _ _ _ hkey, hempty]
      rfl
    simp [WildcardMockLink.closeSubscription, queryToString_eq, hnone]
  · rw [hstep.2.1, mapSet_get_self]

/-- The fixture state for C10: an exact subscription mock and no open
channel. -/
def c10Link : WildcardMockLink :=
  { regularMatches := mapSet emptyStringMap ("subscription S" ++ stringify [("a", "1")])
      [exSubExactMock] }

theorem C10_witness :
    (c10Link.request exOpS).state.closeSubscription exDocS = .error .channelNotOpen
    ∧ (c10Link.request exOpS).state.openSubscriptions
        ("subscription S" ++ stringify [("a", "1")]) = some c10Link.nextObserverId :=
  C10_close_cannot_target_exact_channel c10Link exOpS exSubExactMock [] (by decide) rfl rfl rfl

/-- C3: consuming a wildcard match hands out a substituted copy, not the
stored entry: every match `getWildcardMockMatch` returns carries the
submitting operation's variables in its request (never the registration-time
placeholder), while the entry left at the head of the queue — here with a
finite count `c ≠ 1`, so that the entry survives the match — still carries
the placeholder `none`; consequently a function payload is invoked with the
actual operation's variables when the response is delivered. -/
theorem C3_match_returns_copy_with_caller_vars (s : WildcardMockLink) (op : Operation)
    (mock : Mock) (rest : List Mock) (c : Int) (f : Option Vars → FetchResult)
    (hop : op.query.opKind ≠ some .subscription)
    (h : s.wildcardMatches op.query.printed = some (mock :: rest))
    (hplaceholder : mock.request.vars = none)
    (hc : mock.nMatches = some (.int c)) (hc1 : c ≠ 1)
    (hfn : mock.result = some (.fn f)) :
    (∀ m, (s.getWildcardMockMatch op).1 = some m → m.request.vars = some op.vars)
    ∧ (s.getWildcardMockMatch op).2.wildcardMatches op.query.printed =
        some ({ mock with nMatches := some (.int (c - 1)) } :: rest)
    ∧ (∀ m ms, (s.getWildcardMockMatch op).2.wildcardMatches op.query.printed = some (m :: ms) →
        m.request.vars = none)
    ∧ (s.request op).observable = .delivery (.result (f (some op.vars)) true mock.delay) := by
  have hcons := getWildcardMockMatch_of_cons s op mock rest h
  have hcc : consumeCount mock = ({ mock with nMatches := some (.int (c - 1)) }, false) := by
    rw [consumeCount_int mock c hc]
    have : c - 1 ≠ 0 := by omega
    simp [this]
  have hqueue : (s.getWildcardMockMatch op).2.wildcardMatches op.query.printed =
      some ({ mock with nMatches := some (.int (c - 1)) } :: rest) := by
    rw [hcons, hcc]
    simp [mapSet_get_self]
  refine ⟨?_, hqueue, ?_, ?_⟩
  · intro m hm
    rw [hcons] at hm
    have hm' : ({ (consumeCount mock).1 with
        request := { (consumeCount mock).1.request with vars := some op.vars } } : Mock) = m :=
      Option.some.inj hm
    rw [← hm']
  · intro m ms hm
    rw [hqueue] at hm
    injection Option.some.inj hm with h1 h2
    rw [← h1]
    exact hplaceholder
  · have hstep := request_wildcard_step s op mock rest (.fn f) hop h hfn
    rw [hstep.1]
    simp [forwardResponseToObserver, getResultFromFetchResult, hfn]

/-- The fixture state for C3: a wildcard mock with a function payload and
three remaining matches. -/
def c3Link : WildcardMockLink :=
  { wildcardMatches := mapSet emptyStringMap "query Q" [exFnMock] }

theorem C3_witness :
    (c3Link.getWildcardMockMatch exOp).2.wildcardMatches "query Q" =
        some [{ exFnMock with nMatches := some (.int 2) }]
    ∧ (c3Link.request exOp).observable = .delivery (.result { data := "1" } true (some 0)) := by
  have h := C3_match_returns_copy_with_caller_vars c3Link exOp exFnMock [] 3
    (fun v => { data := (v.getD []).length.repr }) (by decide) rfl rfl rfl (by norm_num) rfl
  constructor
  · exact h.2.1.trans (by norm_num)
  · exact h.2.2.2.trans rfl

/-- C9: a mock registered without `nMatches` — wildcard or exact — is consumed
whole by its first match: the matching operation receives the payload, the
entry is removed at once (here it was alone in its queue, so the queue itself
is dropped), and a second operation matching the same key finds nothing: the
default match count is one, not unbounded. -/
theorem C9_default_match_count_is_one (s : WildcardMockLink) (op : Operation) (mock : Mock)
    (hop : op.query.opKind ≠ some .subscription) :
    (∀ r, s.wildcardMatches op.query.printed = some [mock] →
        mock.nMatches = none → mock.result = some r →
        s.regularMatches (op.query.printed ++ stringify op.vars) = none →
        (s.request op).observable = .delivery (forwardResponseToObserver
          { mock with request := { mock.request with vars := some op.vars } } true)
        ∧ (s.request op).state.wildcardMatches op.query.printed = none
        ∧ ((s.request op).state.request op).observable = observableWithError .noMockMatched)
    ∧ (s.wildcardMatches op.query.printed = none →
        s.regularMatches (op.query.printed ++ stringify op.vars) = some [mock] →
        mock.nMatches = none → mock.result.isSome ∨ mock.error.isSome →
        (s.request op).observable = .delivery (forwardResponseToObserver mock true)
        ∧ (s.request op).state.regularMatches (op.query.printed ++ stringify op.vars) = none
        ∧ ((s.request op).state.request op).observable = observableWithError .noMockMatched) := by
  constructor
  · intro r hw hnm hres hr
    have hstep := request_wildcard_step s op mock [] r hop hw hres
    have hcc := consumeCount_undefined mock hnm
    have hgone : (s.request op).state.wildcardMatches op.query.printed = none := by
      rw [hstep.2.2.2.2.1, hcc]
      simp [mapDelete_get_self]
    have hreg : (s.request op).state.regularMatches (op.query.printed ++ stringify op.vars)
        = none := by
      rw [hstep.2.1]
      exact hr
    have hsecond := request_no_match_step (s.request op).state op hop hgone hreg
    exact ⟨hstep.1, hgone, hsecond.1⟩
  · intro hw hr hnm hok
    have hstep := request_regular_step s op mock [] hop hw hr hok
    have hcc := consumeCount_undefined mock hnm
    have hgone : (s.request op).state.regularMatches (op.query.printed ++ stringify op.vars)
        = none := by
      rw [hstep.2.2.2.2.1, hcc]
      simp [mapDelete_get_self]
    have hwild : (s.request op).state.wildcardMatches op.query.printed = none := by
      rw [hstep.2.1]
      exact hw
    have hsecond := request_no_match_step (s.request op).state op hop hwild hgone
    exact ⟨hstep.1, hgone, hsecond.1⟩

/-- The fixture state for C9: a single-use wildcard mock alone. -/
def c9LinkW : WildcardMockLink :=
  { wildcardMatches := mapSet emptyStringMap "query Q" [exOneShotWildcard] }

/-- The fixture state for C9: a single-use exact mock alone. -/
def c9LinkE : WildcardMockLink :=
  { regularMatches := mapSet emptyStringMap ("query Q" ++ stringify [("a", "1")])
      [exOneShotExact] }

theorem C9_witness :
    ((c9LinkW.request exOp).observable = .delivery (.result { data := "oneshot" } true (some 0))
      ∧ (c9LinkW.request exOp).state.wildcardMatches "query Q" = none
      ∧ ((c9LinkW.request exOp).state.request exOp).observable
          = observableWithError .noMockMatched)
    ∧ ((c9LinkE.request exOp).observable = .delivery (.result { data := "oneshotE" } true none)
      ∧ (c9LinkE.request exOp).state.regularMatches ("query Q" ++ stringify [("a", "1")]) = none
      ∧ ((c9LinkE.request exOp).state.request exOp).observable
          = observableWithError .noMockMatched) := by
  have h1 := (C9_default_match_count_is_one c9LinkW exOp exOneShotWildcard (by decide)).1
    (.value { data := "oneshot" }) rfl rfl rfl rfl
  have h2 := (C9_default_match_count_is_one c9LinkE exOp exOneShotExact (by decide)).2
    rfl rfl rfl (Or.inl rfl)
  exact ⟨⟨h1.1.trans rfl, h1.2.1, h1.2.2⟩, ⟨h2.1.trans rfl, h2.2.1, h2.2.2⟩⟩

/-- C5: a wildcard mock registered with the unbounded sentinel
(`Number.POSITIVE_INFINITY`) never exhausts: for every `k`, `k` successive
matching operations all receive its payload and the entry is still at the
head of its queue afterwards (the predecrement leaves the sentinel in
place, so the removal test never fires). -/
theorem C5_unbounded_mock_never_exhausts (s : WildcardMockLink) (op : Operation)
    (mock : Mock) (rest : List Mock) (r : MockedResult) (k : Nat)
    (hop : op.query.opKind ≠ some .subscription)
    (h : s.wildcardMatches op.query.printed = some (mock :: rest))
    (hinf : mock.nMatches = some .posInf)
    (hres : mock.result = some r) :
    (s.requestMany op k).1 = List.replicate k (.delivery (forwardResponseToObserver
      { mock with request := { mock.request with vars := some op.vars } } true))
    ∧ (s.requestMany op k).2.wildcardMatches op.query.printed = some (mock :: rest) := by
  induction k generalizing s with
  | zero => exact ⟨rfl, h⟩
  | succ k ih =>
      have hstep := request_wildcard_step s op mock rest r hop h hres
      have hcc := consumeCount_posInf mock hinf
      have hstate : (s.request op).state.wildcardMatches op.query.printed
          = some (mock :: rest) := by
        rw [hstep.2.2.2.2.1, hcc]
        simp [mapSet_get_self, mock_update_nMatches_self mock _ hinf]
      have ih' := ih (s.request op).state hstate
      rw [requestMany_succ]
      exact ⟨by rw [List.replicate_succ, hstep.1, ih'.1], ih'.2⟩

/-- The fixture state for C5: the unbounded wildcard mock alone in its
queue. -/
def c5Link : WildcardMockLink :=
  { wildcardMatches := mapSet emptyStringMap "query Q" [exWildcardMock] }

theorem C5_witness :
    (c5Link.requestMany exOp 5).1 =
        List.replicate 5 (.delivery (.result { data := "wild" } true (some 0)))
    ∧ (c5Link.requestMany exOp 5).2.wildcardMatches "query Q" = some [exWildcardMock] := by
  have h := C5_unbounded_mock_never_exhausts c5Link exOp exWildcardMock [] (.value { data := "wild" })
    5 (by decide) rfl rfl rfl
  exact ⟨h.1.trans rfl, h.2⟩

/-- C2: an exact mock with finite positive count `n + 1` at the head of its
queue, with no wildcard queue for the document, serves exactly the first
`n + 1` operations matching its (document, variables) pair; after the last of
those matches the entry is removed from its queue (the queue is dropped
entirely when nothing is behind it), and the next matching operation receives
the payload of the mock behind it when there is one, and the in-band
`noMockMatched` error when there is none. -/
theorem C2_exact_mock_finite_match_count (s : WildcardMockLink) (op : Operation)
    (mock : Mock) (rest : List Mock) (n : Nat)
    (hop : op.query.opKind ≠ some .subscription)
    (hw : s.wildcardMatches op.query.printed = none)
    (hr : s.regularMatches (op.query.printed ++ stringify op.vars) = some (mock :: rest))
    (hc : mock.nMatches = some (.int (n + 1)))
    (hok : mock.result.isSome ∨ mock.error.isSome) :
    (s.requestMany op (n + 1)).1 =
        List.replicate (n + 1) (.delivery (forwardResponseToObserver mock true))
    ∧ (s.requestMany op (n + 1)).2.wildcardMatches op.query.printed = none
    ∧ (s.requestMany op (n + 1)).2.regularMatches (op.query.printed ++ stringify op.vars) =
        (if rest.isEmpty then none else some rest)
    ∧ (rest = [] →
        ((s.requestMany op (n + 1)).2.request op).observable = observableWithError .noMockMatched)
    ∧ (∀ m' r', rest = m' :: r' → m'.result.isSome ∨ m'.error.isSome →
        ((s.requestMany op (n + 1)).2.request op).observable =
          .delivery (forwardResponseToObserver m' true)) := by
  induction n generalizing s mock with
  | zero =>
      have hstep := request_regular_step s op mock rest hop hw hr hok
      have hcc : consumeCount mock = ({ mock with nMatches := some (.int 0) }, true) := by
        rw [consumeCount_int mock _ hc]
        norm_num
      have h2eq : (s.requestMany op 1).2 = (s.request op).state := by
        rw [requestMany_succ, requestMany_zero]
      have hs1w : (s.request op).state.wildcardMatches op.query.printed = none := by
        rw [hstep.2.1]
        exact hw
      have hs1r : (s.request op).state.regularMatches (op.query.printed ++ stringify op.vars)
          = (if rest.isEmpty then none else some rest) := by
        rw [hstep.2.2.2.2.1, hcc]
        rcases hre : rest.isEmpty <;>
          simp [hre, mapDelete_get_self, mapSet_get_self]
      refine ⟨?_, ?_, ?_, ?_, ?_⟩
      · rw [requestMany_succ, requestMany_zero, hstep.1]
        rfl
      · rw [h2eq]
        exact hs1w
      · rw [h2eq]
        exact hs1r
      · intro hrest
        subst hrest
        rw [h2eq]
        have hs1r' : (s.request op).state.regularMatches (op.query.printed ++ stringify op.vars)
            = none := by simpa using hs1r
        exact (request_no_match_step (s.request op).state op hop hs1w hs1r').1
      · intro m' r' hrest hok'
        subst hrest
        rw [h2eq]
        have hs1r' : (s.request op).state.regularMatches (op.query.printed ++ stringify op.vars)
            = some (m' :: r') := by simpa using hs1r
        exact (request_regular_step (s.request op).state op m' r' hop hs1w hs1r' hok').1
  | succ k ih =>
      have hstep := request_regular_step s op mock rest hop hw hr hok
      have hne : ((k + 1 : Nat) : Int) ≠ 0 := by positivity
      have hcast : (((k + 1 : Nat) : Int) + 1) - 1 = ((k + 1 : Nat) : Int) := by ring
      have hcc : consumeCount mock
          = ({ mock with nMatches := some (.int ((k + 1 : Nat) : Int)) }, false) := by
        rw [consumeCount_int mock _ hc, hcast]
        simp
        omega
      have hs1w : (s.request op).state.wildcardMatches op.query.printed = none := by
        rw [hstep.2.1]
        exact hw
      have hs1r : (s.request op).state.regularMatches (op.query.printed ++ stringify op.vars)
          = some ({ mock with nMatches := some (.int ((k + 1 : Nat) : Int)) } :: rest) := by
        rw [hstep.2.2.2.2.1, hcc]
        simp [mapSet_get_self]
      have ih' := ih (s.request op).state
        ({ mock with nMatches := some (.int ((k + 1 : Nat) : Int)) }) hs1w hs1r rfl hok
      have hfwd : forwardResponseToObserver
          ({ mock with nMatches := some (.int ((k + 1 : Nat) : Int)) }) true
          = forwardResponseToObserver mock true := forward_update_nMatches mock _ true
      have h2eq : (s.requestMany op (k + 1 + 1)).2
          = ((s.request op).state.requestMany op (k + 1)).2 := by
        rw [requestMany_succ]
      refine ⟨?_, ?_, ?_, ?_, ?_⟩
      · rw [requestMany_succ, List.replicate_succ, hstep.1]
        rw [show ((s.request op).state.requestMany op (k + 1)).1
            = List.replicate (k + 1) (.delivery (forwardResponseToObserver mock true))
          from by rw [ih'.1, hfwd]]
      · rw [h2eq]
        exact ih'.2.1
      · rw [h2eq]
        exact ih'.2.2.1
      · intro hrest
        rw [h2eq]
        exact ih'.2.2.2.1 hrest
      · intro m' r' hrest hok'
        rw [h2eq]
        exact ih'.2.2.2.2 m' r' hrest hok'

/-- The fixture state for C2: an exact mock with two remaining matches, alone
in its queue. -/
def c2Link : WildcardMockLink :=
  { regularMatches := mapSet emptyStringMap ("query Q" ++ stringify [("a", "1")]) [exExactMock] }

theorem C2_witness :
    (c2Link.requestMany exOp 2).1 =
        List.replicate 2 (.delivery (.result { data := "exact" } true none))
    ∧ (c2Link.requestMany exOp 2).2.regularMatches ("query Q" ++ stringify [("a", "1")]) = none
    ∧ ((c2Link.requestMany exOp 2).2.request exOp).observable
        = observableWithError .noMockMatched := by
  have h := C2_exact_mock_finite_match_count c2Link exOp exExactMock [] 1 (by decide) rfl rfl rfl
    (Or.inl rfl)
  refine ⟨h.1.trans rfl, ?_, h.2.2.2.1 rfl⟩
  simpa using h.2.2.1

/-- Ancillary to C8: what a resolved run of the loop guarantees, for any
starting check index. -/
theorem runWait_resolved (pending : Nat → Bool) :
    ∀ fuel k j, runWait pending fuel k = some j →
      pending j = false ∧ k ≤ j ∧ ∀ i, k ≤ i → i < j → pending i = true := by
  intro fuel
  induction fuel with
  | zero =>
      intro k j h
      simp [runWait] at h
  | succ fuel ih =>
      intro k j h
      rw [runWait] at h
      by_cases hp : pending k = true
      · rw [if_pos hp] at h
        obtain ⟨h1, h2, h3⟩ := ih (k + 1) j h
        refine ⟨h1, by omega, fun i hki hij => ?_⟩
        rcases Nat.eq_or_lt_of_le hki with hik | hik
        · rw [← hik]
          exact hp
        · exact h3 i (by omega) hij
      · rw [if_neg hp] at h
        injection h with h
        subst h
        exact ⟨by simpa using hp, Nat.le_refl _, fun i h1 h2 => absurd h2 (by omega)⟩

/-- C8: the recursive wait loop settles exactly with the chain: whenever
`waitForAllResponsesRecursively` resolves at check `j`, no delivery future was
pending at check `j` and some future was pending at every earlier check — so
it never resolves while a link of the chain of deliveries is still pending —
and when nothing is pending at call time it resolves at the very first check,
without waiting a round. -/
theorem C8_waitForAllResponsesRecursively_settles (pending : Nat → Bool) (fuel : Nat) :
    (∀ j, waitForAllResponsesRecursively pending fuel = some j →
        pending j = false ∧ ∀ i, i < j → pending i = true)
    ∧ (pending 0 = false → 0 < fuel →
        waitForAllResponsesRecursively pending fuel = some 0) := by
  constructor
  · intro j h
    obtain ⟨h1, _, h3⟩ := runWait_resolved pending fuel 0 j h
    exact ⟨h1, fun i hij => h3 i (Nat.zero_le _) hij⟩
  · intro h0 hf
    cases fuel with
    | zero => omega
    | succ fuel => simp [waitForAllResponsesRecursively, runWait, h0]

/-- The fixture for C8: a chain that keeps retriggering deliveries for the
first three checks and is settled at the fourth. -/
def c8Pending : Nat → Bool := fun k => decide (k < 3)

theorem C8_witness :
    (c8Pending 3 = false ∧ ∀ i, i < 3 → c8Pending i = true)
    ∧ waitForAllResponsesRecursively (fun _ => false) 1 = some 0 := by
  refine ⟨?_, (C8_waitForAllResponsesRecursively_settles (fun _ => false) 1).2 rfl (by decide)⟩
  exact (C8_waitForAllResponsesRecursively_settles c8Pending 4).1 3 (by decide)
